import Mathlib

/-!
Verification development for a repository of didactic LangChain example
scripts (chains, models, prompts, runnables, structured_output).

The embedding below translates the repository-authored helper functions and
the shared shape of every script entry point into Lean:

* Python dicts with string keys and string values become association lists
  (type PyDict); dict.get with a default becomes pyGet.
* The condition helper is_long (chains/04_conditional_chains.py, lines 43-45),
  the custom streaming generator custom_streamer
  (runnables/04_advanced_runnables.py, lines 46-53), the caching runnable
  CachingRunnable (runnables/04_advanced_runnables.py, lines 318-339), the
  retrying client RobustAPIClient (runnables/05_practical_runnables.py,
  lines 191-225) and the pydantic validators of UserRegistration
  (structured_output/01_with_structured_output.py, lines 393-412) and
  UserProfile (structured_output/03_advanced_structured.py, lines 517-534)
  are translated function by function.
* Every script has the same main shape: a banner, a guard returning early
  when GOOGLE_API_KEY is unset or empty, then a try block running the demo
  functions separated by pacing input() prompts, and an except block that
  prints the exception and falls through (no re-raise).  runMain models that
  shape; the per-script data (demo count, environment variables read, stdin
  prompt strings, file writes) is recorded in the scripts inventory, one
  entry per source file, checked against the source by textual audit.
-/

namespace GenAI

/-- A Python dict with string keys and values, as an association list. -/
abbrev PyDict := List (String × String)

/-- Python dict.get(k, default): first binding of k, or the default. -/
def pyGet (x : PyDict) (k default : String) : String :=
  match List.lookup k x with
  | some v => v
  | none => default

/-- Source chains/04_conditional_chains.py lines 43-45:
def is_long(x): return len(x.get("text", "")) > 50 -/
def is_long (x : PyDict) : Bool :=
  decide (50 < (pyGet x "text" "").length)

/-- Scan of the character list underlying Python str.split(): acc holds
the characters of the word currently being read, in reverse. -/
def pySplitChars : List Char → List Char → List String
  | [], acc => if acc.isEmpty then [] else [String.mk acc.reverse]
  | c :: cs, acc =>
    if c.isWhitespace then
      if acc.isEmpty then pySplitChars cs []
      else String.mk acc.reverse :: pySplitChars cs []
    else pySplitChars cs (c :: acc)

/-- Python str.split() with no argument: split on whitespace runs,
discarding empty pieces. -/
def pySplit (s : String) : List String :=
  pySplitChars s.data []

/-- Python single-character containment c in s. -/
def pyContainsChar (s : String) (c : Char) : Bool :=
  s.data.contains c

/-- Python str.lower() (source strings are ASCII). -/
def pyLower (s : String) : String :=
  String.mk (s.data.map Char.toLower)

/-- Python v.replace(single-character pattern, empty string): every
occurrence of the character is removed. -/
def pyRemoveChar (s : String) (c : Char) : String :=
  String.mk (s.data.filter (fun d => d ≠ c))

/-- The loop body of custom_streamer: for each word, yield the word
followed by a single space.  Written as the recursion the for loop
performs over the word list. -/
def streamChunks : List String → List String
  | [] => []
  | w :: ws => (w ++ " ") :: streamChunks ws

/-- Source runnables/04_advanced_runnables.py lines 46-53:
def custom_streamer(input):
    text = input.get("text", "")
    words = text.split()
    for i, word in enumerate(words):
        yield f"\x7bword\x7d "
(the time.sleep pacing call has no observable value and is dropped). -/
def custom_streamer (x : PyDict) : List String :=
  streamChunks (pySplit (pyGet x "text" ""))

/-- Python str.isalnum(): true when the string is nonempty and every
character is alphanumeric (source strings are ASCII). -/
def pyIsAlnum (s : String) : Bool :=
  !s.data.isEmpty && s.data.all Char.isAlphanum

namespace UserRegistration

/-- Source structured_output/01_with_structured_output.py lines 402-406:
@validator for username: if not v.replace(\x27_\x27, \x27\x27).isalnum()
raise ValueError(...); return v. -/
def username_alphanumeric (v : String) : Except String String :=
  if !pyIsAlnum (pyRemoveChar v '_') then
    .error "Username must be alphanumeric"
  else
    .ok v

/-- Source structured_output/01_with_structured_output.py lines 408-412:
@validator for email: if \x27@\x27 not in v or \x27.\x27 not in v raise
ValueError(...); return v.lower(). -/
def email_valid (v : String) : Except String String :=
  if !pyContainsChar v '@' || !pyContainsChar v '.' then
    .error "Invalid email format"
  else
    .ok (pyLower v)

end UserRegistration

namespace UserProfile

/-- Source structured_output/03_advanced_structured.py lines 524-528:
@validator for email: if \x27@\x27 not in v raise ValueError(...);
return v.lower(). -/
def validate_email (v : String) : Except String String :=
  if !pyContainsChar v '@' then
    .error "Invalid email"
  else
    .ok (pyLower v)

/-- Source structured_output/03_advanced_structured.py lines 530-534:
@validator for username: if not v.isalnum() raise ValueError(...);
return v. -/
def validate_username (v : String) : Except String String :=
  if !pyIsAlnum v then
    .error "Username must be alphanumeric"
  else
    .ok v

end UserProfile

/-- The result dict returned by RobustAPIClient.invoke; the source returns
dicts whose key set differs between the success and error branches, so the
absent keys are Option none here. -/
structure APIResult where
  status : String
  data : Option String := none
  attempt : Option Nat := none
  error : Option String := none
  fallback : Option String := none
deriving DecidableEq

/-- The metrics dict of RobustAPIClient, initialised in __init__ to
calls = failures = retries = 0. -/
structure Metrics where
  calls : Nat
  failures : Nat
  retries : Nat
deriving DecidableEq

namespace RobustAPIClient

/-- self.metrics after __init__ (source line 196). -/
def initMetrics : Metrics := ⟨0, 0, 0⟩

/-- Python f-string of input.get("data"): the value, or "None" when the
key is absent (dict.get with no default returns None). -/
def pyGetData (x : PyDict) : String :=
  match List.lookup "data" x with
  | some v => v
  | none => "None"

/-- The for loop of RobustAPIClient.invoke
(runnables/05_practical_runnables.py lines 201-223).  fail gives the
outcome of the simulated random failure (random.random() < 0.3) at each
attempt index; the ConnectionError it raises is the only exception in the
body and is caught by the except clause.  attempt is the current loop
index and remaining the number of iterations the loop has left
(remaining = maxRetries - attempt at every call).  Returns the result
dict, the number of attempts performed from this index on, and the
updated metrics.  The time.sleep backoff has no observable value and is
dropped; the remaining = 0 case is the fall-through return of source line
225, reached only when the loop runs out of iterations. -/
def invokeLoop (fail : Nat → Bool) (maxRetries : Nat) (x : PyDict) :
    Nat → Nat → Metrics → APIResult × Nat × Metrics
  | _attempt, 0, m =>
    ({ status := "error", error := some "Max retries exceeded" }, 0, m)
  | attempt, remaining + 1, m =>
    if fail attempt then
      let m1 : Metrics := { m with retries := m.retries + 1 }
      if attempt = maxRetries - 1 then
        ({ status := "error", error := some "Network timeout",
           fallback := some "Using cached data" }, 1,
         { m1 with failures := m1.failures + 1 })
      else
        let (r, n, m2) := invokeLoop fail maxRetries x (attempt + 1) remaining m1
        (r, n + 1, m2)
    else
      ({ status := "success",
         data := some ("Processed: " ++ pyGetData x),
         attempt := some (attempt + 1) }, 1, m)

/-- RobustAPIClient.invoke (source lines 198-225): bump the calls counter,
then run the retry loop from attempt 0 with max_retries iterations. -/
def invoke (fail : Nat → Bool) (maxRetries : Nat) (x : PyDict)
    (m : Metrics) : APIResult × Nat × Metrics :=
  invokeLoop fail maxRetries x 0 maxRetries { m with calls := m.calls + 1 }

end RobustAPIClient

namespace CachingRunnable

/-- The cache key str(sorted(input.items())): the string rendering of the
sorted item list is determined by (and determines) the sorted list itself,
so the model uses the sorted item list as the key.  Pairs are ordered as
Python orders tuples: by first component, ties by second. -/
def pairLe (a b : String × String) : Bool :=
  if a.1 = b.1 then decide (a.2 ≤ b.2) else decide (a.1 < b.1)

/-- Insertion step of the sort. -/
def insortPair (p : String × String) :
    List (String × String) → List (String × String)
  | [] => [p]
  | q :: qs => if pairLe p q then p :: q :: qs else q :: insortPair p qs

/-- Python sorted(...) on the item list, as an insertion sort. -/
def pySorted (l : List (String × String)) : List (String × String) :=
  l.foldr insortPair []

/-- cache_key = str(sorted(input.items())) (source line 327). -/
def cacheKey (x : PyDict) : List (String × String) :=
  pySorted x

/-- The cache dict: keys are cache keys, values are stored results. -/
abbrev Cache (α : Type) := List (List (String × String) × α)

/-- Membership test plus read of the cache dict. -/
def keyLookup (k : List (String × String)) : Cache α → Option α
  | [] => none
  | (k1, v) :: rest => if k = k1 then some v else keyLookup k rest

/-- self.cache after __init__ (source line 323): the empty dict. -/
def initCache : Cache α := []

/-- CachingRunnable.invoke (runnables/04_advanced_runnables.py lines
325-336): build the cache key; on a hit return the cached value, on a
miss call the wrapped runnable, store and return its result.  The cache
is threaded as explicit state; the Bool records whether the wrapped
runnable was called. -/
def invoke (f : PyDict → α) (cache : Cache α) (x : PyDict) :
    α × Cache α × Bool :=
  let k := cacheKey x
  match keyLookup k cache with
  | some v => (v, cache, false)
  | none =>
    let r := f x
    (r, (k, r) :: cache, true)

/-- CachingRunnable.clear_cache (source lines 338-339): self.cache = an
empty dict. -/
def clear_cache (_cache : Cache α) : Cache α := []

end CachingRunnable

/-! ### The shared main template of every script

Every one of the 21 scripts ends with

    def main():
        print(banner)
        if not os.getenv("GOOGLE_API_KEY"):
            print(error message)
            return
        try:
            demo_1()
            input(pacing prompt)
            ...
            demo_n()
            print(closing remarks)
        except Exception as e:
            print(f"...Error: ...")
            ...

models/03_embeddings_example.py additionally guards on numpy
being importable, after the key guard and before the try block.  Every demo
function a script calls raises only subclasses of Exception (there is no
raise of BaseException outside Exception in the repository), so the
except clause covers every demo failure.  The model tracks the control
flow and the two error prints; banner, closing remarks and the ordinary
prints of the demos are console decoration that no claim mentions and are
not tracked. -/

/-- The observable outcome of one demo function call: it either returns
normally or raises an exception rendered as msg. -/
inductive DemoOutcome
  | ok
  | raises (msg : String)
deriving DecidableEq

/-- What a run of main did. -/
structure MainResult where
  printedApiKeyError : Bool
  printedDepError : Bool
  caughtException : Option String
  demosInvoked : Nat
  completedAll : Bool
  returnedNormally : Bool
deriving DecidableEq

/-- Run the demo calls of the try block in order: count the demos invoked
and stop at the first one that raises, reporting its exception. -/
def runDemos : List DemoOutcome → Nat × Option String
  | [] => (0, none)
  | .ok :: rest =>
    let (n, e) := runDemos rest
    (n + 1, e)
  | .raises m :: _ => (1, some m)

/-- Python truthiness of os.getenv: None (unset) and the empty string are
falsy, any other string is truthy. -/
def pyTruthy : Option String → Bool
  | none => false
  | some s => !s.isEmpty

/-- The shared main template.  requiresNumpy is true only for
models/03_embeddings_example.py; numpyAvailable is whether the
numpy module loads there; apiKey is os.getenv("GOOGLE_API_KEY"); demos are
the outcomes of the demo functions the try block calls in order. -/
def runMain (requiresNumpy numpyAvailable : Bool) (apiKey : Option String)
    (demos : List DemoOutcome) : MainResult :=
  if !pyTruthy apiKey then
    { printedApiKeyError := true, printedDepError := false,
      caughtException := none, demosInvoked := 0, completedAll := false,
      returnedNormally := true }
  else if requiresNumpy && !numpyAvailable then
    { printedApiKeyError := false, printedDepError := true,
      caughtException := none, demosInvoked := 0, completedAll := false,
      returnedNormally := true }
  else
    let (n, e) := runDemos demos
    { printedApiKeyError := false, printedDepError := false,
      caughtException := e,
      demosInvoked := n, completedAll := e.isNone,
      returnedNormally := true }

/-! ### Per-script inventory

One record per source file.  numDemos is the number of demo calls in the
try block of main; envReads is the set of distinct environment variable
names the file reads (via os.getenv); stdinPrompts is the set of distinct
prompt strings passed to input(); filesWritten lists file paths the script
opens for writing (none anywhere: no call to open, and the only file read
is the .env file consumed by load_dotenv); apiKeyGuard records that main
returns directly after printing when the key is missing. -/

structure Script where
  name : String
  numDemos : Nat
  requiresNumpy : Bool
  envReads : List String
  stdinPrompts : List String
  filesWritten : List String
  apiKeyGuard : Bool
deriving DecidableEq

/-- The pacing prompt used by every script except models/01. -/
def pacingPrompt : String := "Press Enter to continue..."

/-- The pacing prompt variant of models/01_llm_example.py. -/
def pacingPromptLLM : String := "Press Enter to continue to next example..."

/-- All 21 scripts of the repository, audited from the source. -/
def scripts : List Script :=
  [ ⟨"chains/01_lcel_basics.py", 8, false, ["GOOGLE_API_KEY"],
      [pacingPrompt], [], true⟩,
    ⟨"chains/02_sequential_chains.py", 7, false, ["GOOGLE_API_KEY"],
      [pacingPrompt], [], true⟩,
    ⟨"chains/03_parallel_chains.py", 7, false, ["GOOGLE_API_KEY"],
      [pacingPrompt], [], true⟩,
    ⟨"chains/04_conditional_chains.py", 8, false, ["GOOGLE_API_KEY"],
      [pacingPrompt], [], true⟩,
    ⟨"chains/05_practical_chains.py", 6, false, ["GOOGLE_API_KEY"],
      [pacingPrompt], [], true⟩,
    ⟨"models/01_llm_example.py", 4, false, ["GOOGLE_API_KEY"],
      [pacingPromptLLM], [], true⟩,
    ⟨"models/02_chat_model_example.py", 6, false, ["GOOGLE_API_KEY"],
      [pacingPrompt], [], true⟩,
    ⟨"models/03_embeddings_example.py", 5, true, ["GOOGLE_API_KEY"],
      [pacingPrompt], [], true⟩,
    ⟨"prompts/01_basic_prompts.py", 8, false, ["GOOGLE_API_KEY"],
      [pacingPrompt], [], true⟩,
    ⟨"prompts/02_chat_prompts.py", 7, false, ["GOOGLE_API_KEY"],
      [pacingPrompt], [], true⟩,
    ⟨"prompts/03_advanced_prompts.py", 7, false, ["GOOGLE_API_KEY"],
      [pacingPrompt], [], true⟩,
    ⟨"prompts/04_practical_examples.py", 6, false, ["GOOGLE_API_KEY"],
      [pacingPrompt], [], true⟩,
    ⟨"runnables/01_runnable_interface.py", 8, false, ["GOOGLE_API_KEY"],
      [pacingPrompt], [], true⟩,
    ⟨"runnables/02_runnable_sequence.py", 8, false, ["GOOGLE_API_KEY"],
      [pacingPrompt], [], true⟩,
    ⟨"runnables/03_runnable_parallel.py", 8, false, ["GOOGLE_API_KEY"],
      [pacingPrompt], [], true⟩,
    ⟨"runnables/04_advanced_runnables.py", 8, false, ["GOOGLE_API_KEY"],
      [pacingPrompt], [], true⟩,
    ⟨"runnables/05_practical_runnables.py", 6, false, ["GOOGLE_API_KEY"],
      [pacingPrompt], [], true⟩,
    ⟨"structured_output/01_with_structured_output.py", 8, false,
      ["GOOGLE_API_KEY"], [pacingPrompt], [], true⟩,
    ⟨"structured_output/02_output_parsers.py", 9, false,
      ["GOOGLE_API_KEY"], [pacingPrompt], [], true⟩,
    ⟨"structured_output/03_advanced_structured.py", 8, false,
      ["GOOGLE_API_KEY"], [pacingPrompt], [], true⟩,
    ⟨"structured_output/04_practical_structured.py", 6, false,
      ["GOOGLE_API_KEY"], [pacingPrompt], [], true⟩ ]

/-- Source runnables/04_advanced_runnables.py line 342: the wrapped
runnable used to exercise CachingRunnable,
lambda x: f"Processed: \x7bx[\x27data\x27]\x7d" (the index access is
modelled with pyGet; every input passed to it in the source has the
key). -/
def expensive_operation (x : PyDict) : String :=
  "Processed: " ++ pyGet x "data" ""

/-! ## Helper lemmas -/

/-- The yield loop of custom_streamer is a map over the word list. -/
theorem streamChunks_eq_map (ws : List String) :
    streamChunks ws = ws.map (fun w => w ++ " ") := by
  induction ws with
  | nil => rfl
  | cons w ws ih => simp [streamChunks, ih]

/-- Running the demo block where every demo before the first raising one
returns normally: the raising demo is reached, its exception is reported,
and nothing after it runs. -/
theorem runDemos_append (pre post : List DemoOutcome) (m : String)
    (hpre : ∀ d ∈ pre, d = DemoOutcome.ok) :
    runDemos (pre ++ DemoOutcome.raises m :: post) =
      (pre.length + 1, some m) := by
  induction pre with
  | nil => rfl
  | cons d rest ih =>
    have hd : d = DemoOutcome.ok := hpre d (by simp)
    subst hd
    have := ih (fun d hd => hpre d (by simp [hd]))
    simp [runDemos, this]

/-- The retry loop never touches the calls counter. -/
theorem invokeLoop_calls (fail : Nat → Bool) (maxRetries : Nat)
    (x : PyDict) :
    ∀ remaining attempt m,
      ((RobustAPIClient.invokeLoop fail maxRetries x attempt remaining
          m).2.2).calls = m.calls := by
  intro remaining
  induction remaining with
  | zero => intro attempt m; rfl
  | succ remaining ih =>
    intro attempt m
    simp only [RobustAPIClient.invokeLoop]
    by_cases hf : fail attempt = true
    · simp only [hf, if_true]
      by_cases hl : attempt = maxRetries - 1
      · simp [hl]
      · simp only [hl, if_false]
        have := ih (attempt + 1) { m with retries := m.retries + 1 }
        simpa using this
    · simp [hf]

/-- CachingRunnable.invoke with its cache-key binding unfolded. -/
theorem caching_invoke_eq {α : Type} (f : PyDict → α)
    (c : CachingRunnable.Cache α) (x : PyDict) :
    CachingRunnable.invoke f c x =
      match CachingRunnable.keyLookup (CachingRunnable.cacheKey x) c with
      | some v => (v, c, false)
      | none => (f x, (CachingRunnable.cacheKey x, f x) :: c, true) := rfl

/-- One iteration of the retry loop, unfolded. -/
theorem invokeLoop_step (fail : Nat → Bool) (maxRetries : Nat) (x : PyDict)
    (attempt remaining : Nat) (m : Metrics) :
    RobustAPIClient.invokeLoop fail maxRetries x attempt (remaining + 1) m =
      if fail attempt then
        if attempt = maxRetries - 1 then
          ({ status := "error", error := some "Network timeout",
             fallback := some "Using cached data" }, 1,
           { m with retries := m.retries + 1, failures := m.failures + 1 })
        else
          match RobustAPIClient.invokeLoop fail maxRetries x (attempt + 1)
              remaining { m with retries := m.retries + 1 } with
          | (r, n, m2) => (r, n + 1, m2)
      else
        ({ status := "success",
           data := some ("Processed: " ++ RobustAPIClient.pyGetData x),
           attempt := some (attempt + 1) }, 1, m) := rfl

/-- If the first k attempts starting at index attempt fail and attempt + k
is still inside the loop bound and does not fail, the loop returns the
success dict of attempt index attempt + k, after k + 1 attempts, having
counted k retries. -/
theorem invokeLoop_success (fail : Nat → Bool) (maxRetries : Nat)
    (x : PyDict) :
    ∀ (k attempt remaining : Nat) (m : Metrics),
      attempt + remaining = maxRetries → k < remaining →
      (∀ j, j < k → fail (attempt + j) = true) →
      fail (attempt + k) = false →
      RobustAPIClient.invokeLoop fail maxRetries x attempt remaining m =
        ({ status := "success",
           data := some ("Processed: " ++ RobustAPIClient.pyGetData x),
           attempt := some (attempt + k + 1) }, k + 1,
         { m with retries := m.retries + k }) := by
  intro k
  induction k with
  | zero =>
    intro attempt remaining m hinv hk hpre hok
    match remaining, hk with
    | remaining + 1, _ =>
      have h0 : fail attempt = false := by simpa using hok
      rw [invokeLoop_step, if_neg (by simp [h0])]
      simp
  | succ k ih =>
    intro attempt remaining m hinv hk hpre hok
    match remaining, hk with
    | remaining + 1, hk =>
      have h0 : fail attempt = true := by
        have := hpre 0 (Nat.succ_pos k); simpa using this
      have hne : ¬(attempt = maxRetries - 1) := by omega
      have hrec := ih (attempt + 1) remaining
        { m with retries := m.retries + 1 }
        (by omega) (by omega)
        (fun j hj => by
          have := hpre (j + 1) (by omega)
          rw [show attempt + 1 + j = attempt + (j + 1) from by omega]
          exact this)
        (by
          rw [show attempt + 1 + k = attempt + (k + 1) from by omega]
          exact hok)
      rw [invokeLoop_step, if_pos h0, if_neg hne, hrec]
      simp only [Prod.mk.injEq, APIResult.mk.injEq, Metrics.mk.injEq,
        Option.some.injEq, eq_self_iff_true, true_and, and_true]
      omega

/-- If every attempt from index attempt through the final attempt index
maxRetries - 1 fails (attempt + k + 1 = maxRetries iterations remain),
the loop returns the timeout error dict after using every remaining
attempt, counting the retries and one failure. -/
theorem invokeLoop_allfail (fail : Nat → Bool) (maxRetries : Nat)
    (x : PyDict) :
    ∀ (k attempt : Nat) (m : Metrics),
      attempt + k + 1 = maxRetries →
      (∀ j, j ≤ k → fail (attempt + j) = true) →
      RobustAPIClient.invokeLoop fail maxRetries x attempt (k + 1) m =
        ({ status := "error", error := some "Network timeout",
           fallback := some "Using cached data" }, k + 1,
         { m with retries := m.retries + (k + 1),
                  failures := m.failures + 1 }) := by
  intro k
  induction k with
  | zero =>
    intro attempt m hinv hall
    have h0 : fail attempt = true := by simpa using hall 0 (Nat.le_refl 0)
    have hlast : attempt = maxRetries - 1 := by omega
    rw [invokeLoop_step, if_pos h0, if_pos hlast]
  | succ k ih =>
    intro attempt m hinv hall
    have h0 : fail attempt = true := by
      simpa using hall 0 (Nat.zero_le _)
    have hne : ¬(attempt = maxRetries - 1) := by omega
    have hrec := ih (attempt + 1) { m with retries := m.retries + 1 }
      (by omega)
      (fun j hj => by
        have := hall (j + 1) (by omega)
        rw [show attempt + 1 + j = attempt + (j + 1) from by omega]
        exact this)
    rw [invokeLoop_step, if_pos h0, if_neg hne, hrec]
    simp only [Prod.mk.injEq, APIResult.mk.injEq, Metrics.mk.injEq,
      Option.some.injEq, eq_self_iff_true, true_and, and_true]
    omega

/-! ## Claim theorems -/

/-- Claim C1, counterexample: the repository-authored pure helper is_long
has a deterministic, model-independent boundary condition at 50
characters, shown on the two test inputs of basic_conditional and on
strings of lengths 51 and 50. -/
theorem is_long_boundary_counterexample :
    is_long [("text", String.mk (List.replicate 51 'a'))] = true ∧
    is_long [("text", String.mk (List.replicate 50 'a'))] = false ∧
    is_long [("text",
      "Artificial intelligence is revolutionizing how we interact with technology every day.")] = true ∧
    is_long [("text", "AI is cool.")] = false := by
  refine ⟨?_, ?_, ?_, ?_⟩ <;> decide

/-- Claim C1, amended: the repository does contain a repository-authored
pure function with a deterministic, model-independent specification:
is_long holds exactly when the text field of the input dict (default the
empty string) is longer than 50 characters. -/
theorem is_long_deterministic_spec (x : PyDict) (s : String)
    (h : pyGet x "text" "" = s) :
    is_long x = true ↔ 50 < s.length := by
  subst h
  simp [is_long]

/-- Witness for is_long_deterministic_spec at a concrete input. -/
theorem is_long_deterministic_spec_witness :
    pyGet [("text", "AI is cool.")] "text" "" = "AI is cool." ∧
    (is_long [("text", "AI is cool.")] = true ↔
      50 < ("AI is cool." : String).length) :=
  ⟨rfl, is_long_deterministic_spec _ _ rfl⟩

/-- Claim C2, counterexample: RobustAPIClient.invoke re-attempts a failed
operation by its own loop: when the first simulated call fails and the
second succeeds, it returns the success dict of attempt 2 after
performing 2 attempts and counting one retry. -/
theorem robust_invoke_reattempts_counterexample :
    RobustAPIClient.invoke (fun i => decide (i = 0)) 3
        [("data", "request_0")] RobustAPIClient.initMetrics =
      ({ status := "success", data := some "Processed: request_0",
         attempt := some 2 }, 2, ⟨1, 0, 1⟩) := by
  decide

/-- Claim C2, amended: composition, streaming, batching and parallel
execution are delegated to the framework, but RobustAPIClient.invoke
re-attempts failed operations with its own retry loop: whenever the first
attempt fails and the second does not, it performs a second attempt and
returns its success result, counting one retry. -/
theorem robust_invoke_reattempts (fail : Nat → Bool) (maxRetries : Nat)
    (x : PyDict) (m : Metrics) (r : APIResult) (n : Nat) (mets : Metrics)
    (hmr : 2 ≤ maxRetries) (h0 : fail 0 = true) (h1 : fail 1 = false)
    (hrun : RobustAPIClient.invoke fail maxRetries x m = (r, n, mets)) :
    r.status = "success" ∧ r.attempt = some 2 ∧ n = 2 ∧
    mets.retries = m.retries + 1 := by
  have hL := invokeLoop_success fail maxRetries x 1 0 maxRetries
    { m with calls := m.calls + 1 } (by omega) (by omega)
    (fun j hj => by
      have hj0 : j = 0 := by omega
      subst hj0; simpa using h0)
    (by simpa using h1)
  unfold RobustAPIClient.invoke at hrun
  rw [hL] at hrun
  simp only [Prod.mk.injEq] at hrun
  obtain ⟨hr, hn, hm⟩ := hrun
  subst hr; subst hn; subst hm
  exact ⟨rfl, rfl, rfl, rfl⟩

/-- Witness for robust_invoke_reattempts at a concrete run. -/
theorem robust_invoke_reattempts_witness :
    ({ status := "success", data := some "Processed: None",
       attempt := some 2 } : APIResult).status = "success" ∧
    ({ status := "success", data := some "Processed: None",
       attempt := some 2 } : APIResult).attempt = some 2 ∧
    (2 : Nat) = 2 ∧
    (⟨1, 0, 1⟩ : Metrics).retries = RobustAPIClient.initMetrics.retries + 1 :=
  robust_invoke_reattempts (fun i => decide (i = 0)) 2 []
    RobustAPIClient.initMetrics
    { status := "success", data := some "Processed: None",
      attempt := some 2 } 2 ⟨1, 0, 1⟩
    (by decide) (by decide) (by decide) (by decide)

/-- Claim C5, counterexample: repository-defined schema classes do contain
codebase-authored validation logic: the UserRegistration username
validator rejects a non-alphanumeric username, its email validator
lower-cases an accepted email and rejects a string without an @ sign, and
the UserProfile validators behave likewise. -/
theorem schema_validators_counterexample :
    UserRegistration.username_alphanumeric "john-doe" =
      Except.error "Username must be alphanumeric" ∧
    UserRegistration.email_valid "John@Example.COM" =
      Except.ok "john@example.com" ∧
    UserRegistration.email_valid "not-an-email" =
      Except.error "Invalid email format" ∧
    UserProfile.validate_username "ab!" =
      Except.error "Username must be alphanumeric" ∧
    UserProfile.validate_email "USER@SITE" = Except.ok "user@site" :=
  ⟨rfl, rfl, rfl, rfl, rfl⟩

/-- Claim C5, amended: the schema declarations are handed to the external
framework, but UserRegistration and UserProfile additionally carry
codebase-authored validators: usernames must be alphanumeric (underscores
allowed in UserRegistration), emails must contain an @ sign (and a dot in
UserRegistration) and accepted emails are lower-cased. -/
theorem schema_validators_spec (v : String) :
    (UserRegistration.username_alphanumeric v = Except.ok v ↔
      pyIsAlnum (pyRemoveChar v '_') = true) ∧
    (∀ r, UserRegistration.email_valid v = Except.ok r →
      pyContainsChar v '@' = true ∧ pyContainsChar v '.' = true ∧
      r = pyLower v) ∧
    (pyContainsChar v '@' = true → pyContainsChar v '.' = true →
      UserRegistration.email_valid v = Except.ok (pyLower v)) ∧
    (∀ r, UserProfile.validate_email v = Except.ok r →
      pyContainsChar v '@' = true ∧ r = pyLower v) ∧
    (UserProfile.validate_username v = Except.ok v ↔
      pyIsAlnum v = true) := by
  refine ⟨?_, ?_, ?_, ?_, ?_⟩
  · cases hb : pyIsAlnum (pyRemoveChar v '_') <;>
      simp [UserRegistration.username_alphanumeric, hb]
  · intro r h
    unfold UserRegistration.email_valid at h
    cases h1 : pyContainsChar v '@' <;> cases h2 : pyContainsChar v '.' <;>
      simp [h1, h2] at h
    exact ⟨rfl, rfl, h.symm⟩
  · intro h1 h2
    simp [UserRegistration.email_valid, h1, h2]
  · intro r h
    unfold UserProfile.validate_email at h
    cases h1 : pyContainsChar v '@' <;> simp [h1] at h
    exact ⟨rfl, h.symm⟩
  · cases hb : pyIsAlnum v <;> simp [UserProfile.validate_username, hb]

/-- Witness for schema_validators_spec at a concrete email. -/
theorem schema_validators_spec_witness :
    pyContainsChar "A@b.c" '@' = true ∧
    pyContainsChar "A@b.c" '.' = true ∧
    UserRegistration.email_valid "A@b.c" = Except.ok (pyLower "A@b.c") :=
  ⟨by decide, by decide,
    (schema_validators_spec "A@b.c").2.2.1 (by decide) (by decide)⟩

/-- Claim C6, counterexample: CachingRunnable maintains mutable
per-instance state across invocations: starting from the empty cache, a
first invocation on a dict calls the wrapped runnable and stores the
result, and a second invocation on the same dict is answered from the
stored state without calling the wrapped runnable. -/
theorem caching_state_counterexample :
    CachingRunnable.invoke expensive_operation
        (CachingRunnable.initCache) [("data", "hello")] =
      ("Processed: hello",
       [([("data", "hello")], "Processed: hello")], true) ∧
    CachingRunnable.invoke expensive_operation
        [([("data", "hello")], "Processed: hello")] [("data", "hello")] =
      ("Processed: hello",
       [([("data", "hello")], "Processed: hello")], false) := by
  refine ⟨?_, ?_⟩ <;> decide

/-- Claim C6, amended: the custom components are a few lines of
straight-line logic, but not all of them are stateless or retry-free:
CachingRunnable records every result in its per-instance cache (each
invocation leaves the cache mapping the cache key of its input to the
returned value), and RobustAPIClient keeps per-instance metrics counters
incremented on every invocation of its retry loop. -/
theorem components_mutable_state_spec :
    (∀ (α : Type) (f : PyDict → α) (c : CachingRunnable.Cache α)
        (x : PyDict),
      CachingRunnable.keyLookup (CachingRunnable.cacheKey x)
          ((CachingRunnable.invoke f c x).2.1) =
        some ((CachingRunnable.invoke f c x).1)) ∧
    (∀ (fail : Nat → Bool) (maxRetries : Nat) (x : PyDict) (m : Metrics),
      ((RobustAPIClient.invoke fail maxRetries x m).2.2).calls =
        m.calls + 1) := by
  constructor
  · intro α f c x
    unfold CachingRunnable.invoke
    cases h : CachingRunnable.keyLookup (CachingRunnable.cacheKey x) c with
    | some v => simp [h]
    | none => simp [h, CachingRunnable.keyLookup]
  · intro fail maxRetries x m
    unfold RobustAPIClient.invoke
    exact invokeLoop_calls fail maxRetries x maxRetries 0
      { m with calls := m.calls + 1 }

/-- Claim C7, counterexample: the streamed chunks of
runnable_generator_example are produced by the repository-authored
generator itself: custom_streamer maps the demo input to one chunk per
word, each word followed by a space. -/
theorem custom_streamer_counterexample :
    custom_streamer [("text", "Hello world from custom generator")] =
      ["Hello ", "world ", "from ", "custom ", "generator "] := by
  decide

/-- Claim C7, amended: parallel execution and batching are governed by
the framework, but the streamed chunks of runnable_generator_example are
produced by the repository-authored generator custom_streamer, which
yields exactly one chunk per whitespace-separated word of the text field,
the word followed by a space; the retries of RobustAPIClient.invoke are
likewise performed by a repository-authored loop. -/
theorem custom_streamer_spec (x : PyDict) :
    custom_streamer x =
      (pySplit (pyGet x "text" "")).map (fun w => w ++ " ") ∧
    (custom_streamer x).length = (pySplit (pyGet x "text" "")).length := by
  refine ⟨streamChunks_eq_map _, ?_⟩
  unfold custom_streamer
  rw [streamChunks_eq_map]
  simp

/-- Claim C8: RobustAPIClient.invoke is total: for every failure pattern
it performs between 1 and max_retries attempts and returns a dict whose
status is success or error; it returns success at the first non-failing
attempt (with the attempt number recorded), and it returns the timeout
error, after exactly max_retries attempts, exactly when every attempt
fails. -/
theorem robust_invoke_total_spec (fail : Nat → Bool) (maxRetries : Nat)
    (x : PyDict) (m : Metrics) (r : APIResult) (n : Nat) (mets : Metrics)
    (hmr : 1 ≤ maxRetries)
    (hrun : RobustAPIClient.invoke fail maxRetries x m = (r, n, mets)) :
    (r.status = "success" ∨ r.status = "error") ∧
    (1 ≤ n ∧ n ≤ maxRetries) ∧
    (∀ i, i < maxRetries → (∀ j, j < i → fail j = true) →
      fail i = false →
      r = { status := "success",
            data := some ("Processed: " ++ RobustAPIClient.pyGetData x),
            attempt := some (i + 1) } ∧ n = i + 1) ∧
    ((∀ i, i < maxRetries → fail i = true) →
      r.status = "error" ∧ r.error = some "Network timeout" ∧
      n = maxRetries) ∧
    (r.status = "error" → ∀ i, i < maxRetries → fail i = true) := by
  unfold RobustAPIClient.invoke at hrun
  by_cases hex : ∃ i, i < maxRetries ∧ fail i = false
  · have hspec := Nat.find_spec hex
    set i0 := Nat.find hex with hi0
    have hmin : ∀ j, j < i0 → fail j = true := by
      intro j hj
      have hnot := Nat.find_min hex hj
      cases hfj : fail j with
      | false => exact absurd ⟨lt_trans hj hspec.1, hfj⟩ hnot
      | true => rfl
    have hL := invokeLoop_success fail maxRetries x i0 0 maxRetries
      { m with calls := m.calls + 1 } (by omega) hspec.1
      (fun j hj => by simpa using hmin j hj)
      (by simpa using hspec.2)
    rw [hL] at hrun
    simp only [Prod.mk.injEq] at hrun
    obtain ⟨hr, hn, hm⟩ := hrun
    subst hr; subst hn; subst hm
    have hbound : i0 < maxRetries := hspec.1
    refine ⟨Or.inl rfl, by omega, ?_, ?_, ?_⟩
    · intro i hi hjall hfi
      have hle1 : i0 ≤ i := Nat.find_min' hex ⟨hi, hfi⟩
      have hle2 : ¬(i0 < i) := by
        intro hlt
        have := hjall i0 hlt
        rw [hspec.2] at this
        exact Bool.false_ne_true this
      have hii : i = i0 := by omega
      subst hii
      constructor
      · simp only [APIResult.mk.injEq, Option.some.injEq,
          eq_self_iff_true, true_and, and_true]
        omega
      · omega
    · intro hall
      have := hall i0 hspec.1
      rw [hspec.2] at this
      exact absurd this Bool.false_ne_true
    · intro hst
      exact absurd hst (show ("success" : String) ≠ "error" by decide)
  · have hall : ∀ i, i < maxRetries → fail i = true := by
      intro i hi
      cases hfi : fail i with
      | false => exact absurd ⟨i, hi, hfi⟩ hex
      | true => rfl
    have hsub : maxRetries - 1 + 1 = maxRetries := by omega
    have hL := invokeLoop_allfail fail maxRetries x (maxRetries - 1) 0
      { m with calls := m.calls + 1 } (by omega)
      (fun j hj => by simpa using hall j (by omega))
    rw [hsub] at hL
    rw [hL] at hrun
    simp only [Prod.mk.injEq] at hrun
    obtain ⟨hr, hn, hm⟩ := hrun
    subst hr; subst hn; subst hm
    refine ⟨Or.inr rfl, by omega, ?_, fun _ => ⟨rfl, rfl, rfl⟩, fun _ => hall⟩
    intro i hi hjall hfi
    have := hall i hi
    rw [hfi] at this
    exact absurd this Bool.false_ne_true

/-- Witness for robust_invoke_total_spec at a concrete run. -/
theorem robust_invoke_total_spec_witness :
    (({ status := "success", data := some "Processed: request_0",
        attempt := some 2 } : APIResult).status = "success" ∨
     ({ status := "success", data := some "Processed: request_0",
        attempt := some 2 } : APIResult).status = "error") :=
  (robust_invoke_total_spec (fun i => decide (i = 0)) 3
    [("data", "request_0")] RobustAPIClient.initMetrics
    { status := "success", data := some "Processed: request_0",
      attempt := some 2 } 2 ⟨1, 0, 1⟩ (by decide) (by decide)).1

/-- Claim C9: CachingRunnable.invoke is consistent with the wrapped
runnable and caches by input: after an invocation on x1, a second
invocation on any x2 with the same cache key returns exactly the first
result without calling the wrapped runnable and leaves the cache
unchanged; when the wrapped runnable is a pure function of the dict (it
respects cache keys) and every cache entry came from it, the returned
result equals a direct call; and clear_cache restores the state of
__init__. -/
theorem caching_runnable_spec {α : Type} (f : PyDict → α)
    (c : CachingRunnable.Cache α) (x1 x2 : PyDict) (r1 : α)
    (c1 : CachingRunnable.Cache α) (b1 : Bool)
    (hrun : CachingRunnable.invoke f c x1 = (r1, c1, b1))
    (hkey : CachingRunnable.cacheKey x2 = CachingRunnable.cacheKey x1)
    (hf : ∀ a b : PyDict,
      CachingRunnable.cacheKey a = CachingRunnable.cacheKey b → f a = f b)
    (hc : ∀ k v, CachingRunnable.keyLookup k c = some v →
      ∃ y : PyDict, CachingRunnable.cacheKey y = k ∧ f y = v) :
    CachingRunnable.invoke f c1 x2 = (r1, c1, false) ∧
    r1 = f x1 ∧
    CachingRunnable.clear_cache c1 =
      (CachingRunnable.initCache : CachingRunnable.Cache α) := by
  rw [caching_invoke_eq] at hrun
  split at hrun
  case h_1 v heq =>
    simp only [Prod.mk.injEq] at hrun
    obtain ⟨hv, hcc, hb⟩ := hrun
    subst hv; subst hcc
    refine ⟨?_, ?_, rfl⟩
    · rw [caching_invoke_eq, hkey, heq]
    · obtain ⟨y, hy, hfy⟩ := hc _ _ heq
      rw [← hfy]
      exact hf y x1 hy
  case h_2 heq =>
    simp only [Prod.mk.injEq] at hrun
    obtain ⟨hv, hcc, hb⟩ := hrun
    subst hv; subst hcc
    refine ⟨?_, rfl, rfl⟩
    rw [caching_invoke_eq, hkey]
    simp [CachingRunnable.keyLookup]

/-- Witness for caching_runnable_spec at a concrete run from the empty
cache. -/
theorem caching_runnable_spec_witness :
    CachingRunnable.invoke (fun _ : PyDict => "hi")
        [([("data", "hello")], "hi")] [("data", "hello")] =
      ("hi", [([("data", "hello")], "hi")], false) ∧
    "hi" = (fun _ : PyDict => "hi") [("data", "hello")] ∧
    CachingRunnable.clear_cache [([("data", "hello")], "hi")] =
      (CachingRunnable.initCache : CachingRunnable.Cache String) :=
  caching_runnable_spec (fun _ => "hi") [] [("data", "hello")]
    [("data", "hello")] "hi" [([("data", "hello")], "hi")] true
    (by decide) rfl (fun _ _ _ => rfl)
    (fun k v h => by simp [CachingRunnable.keyLookup] at h)

/-- Claim C3: for every script, when a demo function called from the try
block of main raises an exception (all earlier demos returning normally),
the top-level except clause catches it: exactly the demos up to and
including the raising one have been invoked, the exception is printed,
and main returns normally without re-raising. -/
theorem main_catches_demo_exception (s : Script) (_hs : s ∈ scripts)
    (npy : Bool) (apiKey : Option String)
    (pre post : List DemoOutcome) (msg : String)
    (hkey : pyTruthy apiKey = true)
    (hnpy : s.requiresNumpy = false ∨ npy = true)
    (_hlen : pre.length + 1 + post.length = s.numDemos)
    (hpre : ∀ d ∈ pre, d = DemoOutcome.ok) :
    runMain s.requiresNumpy npy apiKey
        (pre ++ DemoOutcome.raises msg :: post) =
      { printedApiKeyError := false, printedDepError := false,
        caughtException := some msg, demosInvoked := pre.length + 1,
        completedAll := false, returnedNormally := true } := by
  have hguard : (s.requiresNumpy && !npy) = false := by
    rcases hnpy with h | h <;> simp [h]
  simp [runMain, hkey, hguard, runDemos_append pre post msg hpre]

/-- Witness for main_catches_demo_exception: the
chains/04_conditional_chains.py entry with its eighth demo raising. -/
theorem main_catches_demo_exception_witness :
    runMain false true (some "key")
        (List.replicate 7 DemoOutcome.ok ++
          DemoOutcome.raises "boom" :: []) =
      { printedApiKeyError := false, printedDepError := false,
        caughtException := some "boom", demosInvoked := 8,
        completedAll := false, returnedNormally := true } := by
  have h := main_catches_demo_exception
    ⟨"chains/04_conditional_chains.py", 8, false, ["GOOGLE_API_KEY"],
      [pacingPrompt], [], true⟩ (by decide) true (some "key")
    (List.replicate 7 DemoOutcome.ok) [] "boom" (by decide) (Or.inl rfl)
    (by decide) (by decide)
  simpa using h

/-- Claim C10: for every script, when GOOGLE_API_KEY is unset or the
empty string, main prints the error message and returns immediately:
no demo function is invoked (hence no model call is made, since model
calls occur only inside the demos), no exception escapes, and main
returns normally. -/
theorem main_missing_api_key_guard (s : Script) (hs : s ∈ scripts)
    (npy : Bool) (apiKey : Option String) (demos : List DemoOutcome)
    (hkey : apiKey = none ∨ apiKey = some "") :
    runMain s.requiresNumpy npy apiKey demos =
      { printedApiKeyError := true, printedDepError := false,
        caughtException := none, demosInvoked := 0,
        completedAll := false, returnedNormally := true } ∧
    s.apiKeyGuard = true := by
  constructor
  · rcases hkey with h | h <;> subst h <;> rfl
  · fin_cases hs <;> rfl

/-- Witness for main_missing_api_key_guard: the
chains/04_conditional_chains.py entry with the key unset. -/
theorem main_missing_api_key_guard_witness :
    runMain false true none (List.replicate 8 DemoOutcome.ok) =
      { printedApiKeyError := true, printedDepError := false,
        caughtException := none, demosInvoked := 0,
        completedAll := false, returnedNormally := true } :=
  (main_missing_api_key_guard
    ⟨"chains/04_conditional_chains.py", 8, false, ["GOOGLE_API_KEY"],
      [pacingPrompt], [], true⟩ (by decide) true none
    (List.replicate 8 DemoOutcome.ok) (Or.inl rfl)).1

/-- Claim C4: the only external interface of every script is the
GOOGLE_API_KEY environment variable and console stdin/stdout: every
environment variable read is GOOGLE_API_KEY, every stdin read is one of
the two pacing prompts, and no file is written. -/
theorem external_interface_only (s : Script) (hs : s ∈ scripts) :
    s.envReads = ["GOOGLE_API_KEY"] ∧
    (∀ p ∈ s.stdinPrompts, p = pacingPrompt ∨ p = pacingPromptLLM) ∧
    s.filesWritten = [] := by
  fin_cases hs <;> exact ⟨rfl, by decide, rfl⟩

/-- Witness for external_interface_only at the chains/04 script. -/
theorem external_interface_only_witness :
    (⟨"chains/04_conditional_chains.py", 8, false, ["GOOGLE_API_KEY"],
       [pacingPrompt], [], true⟩ : Script).envReads = ["GOOGLE_API_KEY"] :=
  (external_interface_only
    ⟨"chains/04_conditional_chains.py", 8, false, ["GOOGLE_API_KEY"],
      [pacingPrompt], [], true⟩ (by decide)).1

end GenAI
